import Mathlib

/-
Shallow embedding of src/layers.py: the WeightNormalization wrapper layer.

Modelling conventions:
- Scalars are rationals.  The ML framework exposes a square-root primitive;
  it is passed in explicitly as a parameter `sq : Rat → Rat`, and the
  framework rsqrt is modelled as `fun t => 1 / sq t`.
- A weight tensor of shape [..., depth] is represented in its flattened view
  `Fin r → Fin d → Rat` (r = product of all axes but the last, d = last axis),
  which is exactly the view `tf.reshape(v, [-1, layer_depth])` used by the
  code; all reductions in the code run over all axes but the last, so the
  flattened view is lossless for them.
- The wrapped layer (or, for recurrent layers, the kernel-bearing inner cell)
  is a record whose `kernel` field stands for the attribute the wrapper
  manipulates: the `kernel` attribute of a plain layer, or the
  `recurrent_kernel` attribute of the inner cell of a recurrent layer.
  Its own forward computation is an abstract pre-activation function
  `preAct` of the kernel, the bias and the input, followed by an optional
  elementwise activation.
- Stateful Python attribute updates become explicit state passing on the
  records below; fallible code returns Except.
-/

namespace WeightNorm

open BigOperators

/-- Flattened weight tensor: rows index all axes but the last, columns the
last (output-channel) axis. -/
abbrev Tensor (r d : ℕ) := Fin r → Fin d → ℚ

/-- Per-output-channel vector. -/
abbrev Vec (d : ℕ) := Fin d → ℚ

/-- Epsilon used by tf.nn.l2_normalize (1e-12). -/
def l2NormEps : ℚ := 1 / 1000000000000

/-- Epsilon added to the variance in _data_dep_init (1e-10). -/
def varEps : ℚ := 1 / 10000000000

/-- tf.nn.l2_normalize(v, axis = all but last): each entry is multiplied by
rsqrt(max(sum of squares of its column, eps)). -/
def l2_normalize (sq : ℚ → ℚ) (t : Tensor r d) : Tensor r d :=
  fun i j => t i j * (1 / sq (max (∑ i2 : Fin r, t i2 j ^ 2) l2NormEps))

/-- The wrapped layer (for recurrent layers: the view of the layer together
with its kernel-bearing inner cell).
- hasKernel models hasattr(kernel_layer, "kernel");
- isRNN models isinstance(layer, tf.keras.layers.RNN);
- kernel models the attribute the wrapper rewrites (kernel, or the
  recurrent_kernel of the cell when isRNN);
- bias models layer.bias, none standing for both an absent attribute and a
  None value;
- activation is the optional elementwise activation;
- preAct is the abstract pre-activation forward computation of the layer as
  a function of the rewritten kernel attribute, the bias and the input
  (the remaining parameters of the layer are folded into the function). -/
structure Layer (r d w b : ℕ) (ι : Type) where
  hasKernel : Bool
  isRNN : Bool
  kernel : Tensor r d
  bias : Option (Vec w)
  trainable : Bool
  activation : Option (ℚ → ℚ)
  preAct : Tensor r d → Option (Vec w) → ι → Tensor b w

/-- Invoking the wrapped layer: pre-activation forward computation from the
current kernel attribute and bias, then the activation if one is set. -/
def layerForward (L : Layer r d w b ι) (x : ι) : Tensor b w :=
  match L.activation with
  | none => L.preAct L.kernel L.bias x
  | some f => fun i j => f (L.preAct L.kernel L.bias x i j)

/-- The wrapper object right after __init__ (before build): it stores the
wrapped layer, the data_init flag and the is_rnn test result. -/
structure Wrapper (r d w b : ℕ) (ι : Type) where
  layer : Layer r d w b ι
  data_init : Bool
  is_rnn : Bool

/-- WeightNormalization.__init__: total, no validation happens here (the
kernel check is deferred to build); is_rnn is the isinstance test. -/
def wnInit (L : Layer r d w b ι) (data_init : Bool) : Wrapper r d w b ι :=
  { layer := L, data_init := data_init, is_rnn := L.isRNN }

/-- Wrapper state after a successful build: g, v, the initialized flag and
(for data_init) the naked clone have been created. -/
structure WNState (r d w b : ℕ) (ι : Type) where
  layer : Layer r d w b ι
  data_init : Bool
  is_rnn : Bool
  g : Vec d
  v : Tensor r d
  initialized : Bool
  clone : Option (Layer r d w b ι)

/-- The clone built in build under data_init: serialize/deserialize with
trainable set to False, weights copied from the wrapped layer, and the
activation removed only when the layer is not recurrent (the code guards
the activation removal with `if not self.is_rnn`). -/
def nakedClone (L : Layer r d w b ι) : Layer r d w b ι :=
  { L with
    trainable := false
    activation := if L.isRNN then L.activation else none }

/-- The state a successful build produces: g is allocated with the ones
initializer, v aliases the current kernel values, the initialized flag is
allocated with the zeros (false) initializer, and the naked clone is built
exactly when data_init is set. -/
def buildState (wrp : Wrapper r d w b ι) : WNState r d w b ι :=
  { layer := wrp.layer
    data_init := wrp.data_init
    is_rnn := wrp.is_rnn
    g := fun _ => 1
    v := wrp.layer.kernel
    initialized := false
    clone := if wrp.data_init then some (nakedClone wrp.layer) else none }

/-- WeightNormalization.build: raises ValueError when the kernel-bearing
object lacks a kernel attribute; otherwise creates the normalization
state. -/
def build (wrp : Wrapper r d w b ι) : Except String (WNState r d w b ι) :=
  if wrp.layer.hasKernel = false then
    .error "WeightNormalization must wrap a layer that contains a kernel for weights"
  else
    .ok (buildState wrp)

/-- Per-channel mean of a batch output over all axes but the last
(first component of tf.nn.moments). -/
def tMean (x : Tensor b w) : Vec w :=
  fun j => (∑ i : Fin b, x i j) / (b : ℚ)

/-- Per-channel population variance of a batch output over all axes but the
last (second component of tf.nn.moments). -/
def tVariance (x : Tensor b w) : Vec w :=
  fun j => (∑ i : Fin b, (x i j - tMean x j) ^ 2) / (b : ℚ)

/-- The per-channel correction factor, tiled when the widths of the
statistics (w) and of g (d) differ: tf.tile(base, [d / w]) concatenates
d / w copies, so entry i of the result is base (i % w).  When the widths
agree the code skips the tiling and uses base itself.  (When w does not
divide d the tiled tensor has the wrong length and the framework rejects
the assign; that failure is outside this model.) -/
def dataDepScale (base : Vec w) : Vec d :=
  if h : w = d then
    fun i => base (Fin.cast h.symm i)
  else
    fun i => if hm : i.val % w < w then base ⟨i.val % w, hm⟩ else 0

/-- WeightNormalization._init_norm: g is assigned the column norms of the
flattened v, i.e. g j = sqrt of the sum of squares of column j. -/
def initNormAssigns (sq : ℚ → ℚ) (s : WNState r d w b ι) : WNState r d w b ι :=
  { s with g := fun j => sq (∑ i : Fin r, s.v i j ^ 2) }

/-- WeightNormalization._data_dep_init: run the input through the naked
clone, take per-channel mean and variance of the result, build the factor
1 / sqrt(variance + 1e-10) (tiled to the width of g when needed), then
assign g := g * factor and, when the layer has a bias that is not None,
bias := -mean * factor.  The product -mean * factor is only shape-correct
when the statistics width equals the kernel depth (the non-tiled case);
the guard on the index models that restriction.  The clone is present
whenever data_init was set at build time; the none branch is dead code
under that invariant and leaves the state unchanged. -/
def dataDepAssigns (sq : ℚ → ℚ) (s : WNState r d w b ι) (x : ι) : WNState r d w b ι :=
  match s.clone with
  | none => s
  | some c =>
    let xInit := layerForward c x
    let mInit := tMean xInit
    let vInit := tVariance xInit
    let scaleInit : Vec d := dataDepScale (fun j => 1 / sq (vInit j + varEps))
    let biasScale : Vec w := fun j => if h : j.val < d then scaleInit ⟨j.val, h⟩ else 0
    { s with
      g := fun i => s.g i * scaleInit i
      layer := { s.layer with
        bias := match s.layer.bias with
          | some _ => some (fun j => -(mInit j) * biasScale j)
          | none => none } }

/-- The assignments performed by one initialization pass: the selected
policy (data-dependent or norm-based) followed by the assignment of true to
the initialized flag. -/
def initAssigns (sq : ℚ → ℚ) (s : WNState r d w b ι) (x : ι) : WNState r d w b ι :=
  let s1 := if s.data_init then dataDepAssigns sq s x else initNormAssigns sq s
  { s1 with initialized := true }

/-- WeightNormalization._initialize_weights: asserts that the initialized
flag is false (tf.debugging.assert_equal, message as in the source) and
then performs the one-time assignments. -/
def initWeights (sq : ℚ → ℚ) (s : WNState r d w b ι) (x : ι) :
    Except String (WNState r d w b ι) :=
  if s.initialized = true then .error "The layer has been initialized."
  else .ok (initAssigns sq s x)

/-- The effective weight computed on every call:
l2_normalize(v, all axes but last) multiplied broadcast-wise by g. -/
def effectiveWeight (sq : ℚ → ℚ) (v : Tensor r d) (g : Vec d) : Tensor r d :=
  fun i j => l2_normalize sq v i j * g j

/-- WeightNormalization.call: tf.cond runs the one-time initialization when
the flag is false (the control dependencies sequence the g read after the
assignments); then the kernel attribute is overwritten with the effective
weight and the wrapped layer is invoked on the updated state. -/
def call (sq : ℚ → ℚ) (s : WNState r d w b ι) (x : ι) :
    Tensor b w × WNState r d w b ι :=
  let s1 := if s.initialized then s else initAssigns sq s x
  let kernel := effectiveWeight sq s1.v s1.g
  let layer1 := { s1.layer with kernel := kernel }
  (layerForward layer1 x, { s1 with layer := layer1 })

/-- WeightNormalization.remove: bake the current effective weight into the
kernel attribute (a fresh variable named kernel, or recurrent_kernel for
recurrent layers) and return the wrapped layer. -/
def remove (sq : ℚ → ℚ) (s : WNState r d w b ι) :
    Layer r d w b ι × WNState r d w b ι :=
  let kernel := effectiveWeight sq s.v s.g
  let layer1 := { s.layer with kernel := kernel }
  (layer1, { s with layer := layer1 })

/-- Bool-valued observation used to exhibit counterexamples about the clone:
whether the clone of a built wrapper has its activation removed (true when
no state or no clone exists). -/
def cloneActIsNone (e : Except String (WNState r d w b ι)) : Bool :=
  match e with
  | .error _ => true
  | .ok s =>
    match s.clone with
    | none => true
    | some c => c.activation.isNone

/-- Concrete dense-like test layer used by witnesses: kernel entries
i + j + 1, zero bias present, no activation, preAct adding the bias to the
kernel entries. -/
def testLayer : Layer 2 2 2 2 Unit where
  hasKernel := true
  isRNN := false
  kernel := fun i j => (i.val : ℚ) + (j.val : ℚ) + 1
  bias := some (fun _ => (0 : ℚ))
  trainable := true
  activation := none
  preAct := fun k bo _ => fun i j =>
    k i j + (match bo with | some bv => bv j | none => 0)

/-- Test layer without a kernel attribute. -/
def testLayerNoKernel : Layer 2 2 2 2 Unit :=
  { testLayer with hasKernel := false }

/-- Recurrent test layer carrying an activation. -/
def testRNNLayer : Layer 2 2 2 2 Unit :=
  { testLayer with isRNN := true, activation := some (fun q => q + 1) }

/-- Built state with the flag already forced to true, for exercising the
defensive assertion. -/
def testStateInitialized : WNState 2 2 2 2 Unit :=
  { buildState (wnInit testLayer false) with initialized := true }

/-- Concrete per-channel factor vector for the tiling witness. -/
def testBase : Vec 2 := fun j => (j.val : ℚ) + 5

lemma initAssigns_v (sq : ℚ → ℚ) (s : WNState r d w b ι) (x : ι) :
    (initAssigns sq s x).v = s.v := by
  rcases hd : s.data_init <;> rcases hc : s.clone with _ | c <;>
    simp [initAssigns, dataDepAssigns, initNormAssigns, hd, hc]

lemma dataDepScale_self (base : Vec w) : dataDepScale (d := w) base = base := by
  funext t
  simp [dataDepScale]

lemma dataDepScale_self_apply (base : Vec w) (j : Fin w) :
    dataDepScale (d := w) base j = base j := by
  rw [dataDepScale_self]

lemma biasScale_self (base : Vec w) (j : Fin w) :
    (if h : j.val < w then dataDepScale (d := w) base ⟨j.val, h⟩ else 0) = base j := by
  rw [dif_pos j.isLt, dataDepScale_self]

/-- Claim C1: on every forward call of the wrapper, the kernel attribute of
the wrapped layer in the post-call state equals
l2_normalize(v, all axes but last) multiplied broadcast-wise by the scale
vector g (the values of v being unchanged by the call), and the returned
output is exactly the forward computation of the wrapped layer on that
updated state, so the substitution is written before the layer is
invoked and is what its computation consumes. -/
theorem call_effective_weight (sq : ℚ → ℚ) (s : WNState r d w b ι) (x : ι) :
    ((call sq s x).2).layer.kernel
        = effectiveWeight sq ((call sq s x).2).v ((call sq s x).2).g ∧
    ((call sq s x).2).v = s.v ∧
    (call sq s x).1 = layerForward ((call sq s x).2).layer x := by
  refine ⟨rfl, ?_, rfl⟩
  rcases hi : s.initialized <;> simp [call, hi, initAssigns_v]

/-- Claim C5: the output of the layer returned by remove on a given input
equals the output the wrapper itself produced on that same input
immediately before remove was called. -/
theorem remove_round_trip (sq : ℚ → ℚ) (s : WNState r d w b ι) (x : ι) :
    layerForward (remove sq ((call sq s x).2)).1 x = (call sq s x).1 := rfl

/-- Claim C10: remove only rewrites the kernel attribute of the wrapped
layer: the scale vector g, the direction values v, the bias, the
activation, the forward function, the initialized flag and the clone are
all unchanged, and the returned object is exactly the wrapped layer held
by the post-removal state; on a freshly built wrapper the baked-in kernel
is l2_normalize(original kernel) since g still holds its ones initializer
value. -/
theorem remove_frame_effect (sq : ℚ → ℚ) (s : WNState r d w b ι)
    (L : Layer r d w b ι) (di : Bool) :
    (remove sq s).1 = ((remove sq s).2).layer ∧
    ((remove sq s).2).g = s.g ∧
    ((remove sq s).2).v = s.v ∧
    ((remove sq s).2).layer.bias = s.layer.bias ∧
    ((remove sq s).2).layer.activation = s.layer.activation ∧
    ((remove sq s).2).layer.preAct = s.layer.preAct ∧
    ((remove sq s).2).initialized = s.initialized ∧
    ((remove sq s).2).clone = s.clone ∧
    ((remove sq s).2).layer.kernel = effectiveWeight sq s.v s.g ∧
    (remove sq (buildState (wnInit L di))).1.kernel = l2_normalize sq L.kernel := by
  refine ⟨rfl, rfl, rfl, rfl, rfl, rfl, rfl, rfl, rfl, ?_⟩
  funext i j
  simp [remove, buildState, wnInit, effectiveWeight]

/-- Claim C2: with norm-based initialization (data_init false), after the
first forward call on a freshly built wrapper the scale vector g equals the
L2 norm of the original kernel of the wrapped layer taken over all axes but
the last: g j = sqrt of the sum of the squares of column j of the flattened
kernel. -/
theorem norm_init_first_call (sq : ℚ → ℚ) (L : Layer r d w b ι) (x : ι)
    (hk : L.hasKernel = true) :
    build (wnInit L false) = .ok (buildState (wnInit L false)) ∧
    ((call sq (buildState (wnInit L false)) x).2).g
      = fun j => sq (∑ i : Fin r, L.kernel i j ^ 2) := by
  constructor
  · simp [build, wnInit, hk]
  · simp [call, buildState, wnInit, initAssigns, initNormAssigns]

theorem norm_init_first_call_witness :
    ((call id (buildState (wnInit testLayer false)) ()).2).g
      = fun j => id (∑ i : Fin 2, testLayer.kernel i j ^ 2) :=
  (norm_init_first_call id testLayer () rfl).2

/-- Claim C4: the initialized flag of a freshly built wrapper is false; any
call leaves the flag true; a call on an already initialized state reassigns
neither the scale vector nor the bias and keeps the flag true; and remove
never changes the flag.  Together: the flag transitions false to true
during the first call, never reverts, and the initialization assignments
run at most once. -/
theorem initialized_flag_lifecycle (sq : ℚ → ℚ) :
    (∀ (wrp : Wrapper r d w b ι) (s : WNState r d w b ι),
        build wrp = .ok s → s.initialized = false) ∧
    (∀ (s : WNState r d w b ι) (x : ι), ((call sq s x).2).initialized = true) ∧
    (∀ (s : WNState r d w b ι) (x : ι), s.initialized = true →
        ((call sq s x).2).g = s.g ∧
        ((call sq s x).2).layer.bias = s.layer.bias ∧
        ((call sq s x).2).initialized = true) ∧
    (∀ (s : WNState r d w b ι), ((remove sq s).2).initialized = s.initialized) := by
  refine ⟨?_, ?_, ?_, ?_⟩
  · intro wrp s h
    by_cases hkk : wrp.layer.hasKernel = false
    · simp [build, hkk] at h
    · simp [build, hkk] at h
      subst h
      rfl
  · intro s x
    rcases hi : s.initialized <;> simp [call, hi, initAssigns]
  · intro s x hi
    refine ⟨?_, ?_, ?_⟩ <;> simp [call, hi]
  · intro s
    rfl

theorem initialized_flag_lifecycle_witness :
    ((call id testStateInitialized ()).2).g = testStateInitialized.g :=
  (((initialized_flag_lifecycle id).2.2.1) testStateInitialized () rfl).1

/-- Claim C6: construction is total (the wrapper records the layer and the
flag with no validation), and build fails if and only if the kernel-bearing
object lacks a kernel attribute; in the failing case the exact ValueError
is raised and no normalization state is produced. -/
theorem build_kernel_check (L : Layer r d w b ι) (di : Bool) :
    (wnInit L di).layer = L ∧
    (wnInit L di).data_init = di ∧
    ((build (wnInit L di)).toOption = none ↔ L.hasKernel = false) ∧
    (L.hasKernel = false →
      build (wnInit L di)
        = .error "WeightNormalization must wrap a layer that contains a kernel for weights") := by
  refine ⟨rfl, rfl, ?_, ?_⟩ <;>
    rcases hk : L.hasKernel <;> simp [build, wnInit, hk, Except.toOption]

theorem build_kernel_check_witness :
    (build (wnInit testLayerNoKernel true)).toOption = none :=
  ((build_kernel_check testLayerNoKernel true).2.2.1).mpr rfl

/-- Claim C7: the one-time initialization routine fails loudly with the
assertion message exactly when the initialized flag is already true, and
under the precondition that the flag is false it succeeds, returning the
one-time assignments; hence the failure branch is unreachable when the
routine is only entered with the flag false. -/
theorem init_assertion_guard (sq : ℚ → ℚ) (s : WNState r d w b ι) (x : ι) :
    (s.initialized = true →
      initWeights sq s x = .error "The layer has been initialized.") ∧
    (s.initialized = false →
      initWeights sq s x = .ok (initAssigns sq s x)) := by
  constructor <;> intro h <;> simp [initWeights, h]

theorem init_assertion_guard_witness :
    initWeights id testStateInitialized () = .error "The layer has been initialized." :=
  (init_assertion_guard id testStateInitialized ()).1 rfl

/-- Claim C8: when the per-channel statistics vector has width w and g has
width k * w, the correction factor applied at position j * w + i (replica j
of channel i) is the factor of channel i, so all k replicas of a channel
receive the same factor; when the widths are equal the factor vector is
used unchanged (no tiling). -/
theorem data_dep_tiling (k : ℕ) (base : Vec w) (j : Fin k) (i : Fin w)
    (hji : j.val * w + i.val < k * w) :
    dataDepScale (d := k * w) base ⟨j.val * w + i.val, hji⟩ = base i ∧
    dataDepScale (d := w) base = base := by
  refine ⟨?_, dataDepScale_self base⟩
  by_cases hw : w = k * w
  · rcases Nat.eq_zero_or_pos w with hw0 | hw0
    · exact absurd i.isLt (by omega)
    · have hk1 : k = 1 := by
        have hmul : k * w = 1 * w := by omega
        exact Nat.eq_of_mul_eq_mul_right hw0 hmul
      have hj0 : j.val = 0 := by
        have := j.isLt
        omega
      simp only [dataDepScale, dif_pos hw]
      congr 1
      apply Fin.ext
      simp [hj0]
  · simp only [dataDepScale, dif_neg hw]
    have hmod : (j.val * w + i.val) % w = i.val := by
      rw [Nat.add_comm, Nat.add_mul_mod_self_right]
      exact Nat.mod_eq_of_lt i.isLt
    simp only [hmod]
    rw [dif_pos i.isLt]

theorem data_dep_tiling_witness :
    dataDepScale (d := 2 * 2) testBase
        ⟨(1 : Fin 2).val * 2 + (0 : Fin 2).val, by decide⟩
      = testBase 0 :=
  (data_dep_tiling 2 testBase 1 0 (by decide)).1

/-- Claim C9 counterexample: building the wrapper around a recurrent layer
with data-dependent initialization produces a clone whose activation is NOT
removed (the source guards the removal with `if not self.is_rnn`), so the
claim that the activation of the clone is disabled for every wrapped layer
type, recurrent ones included, is false. -/
theorem clone_activation_counterexample :
    cloneActIsNone (build (wnInit testRNNLayer true)) = false := rfl

/-- Claim C9 (amended): when data-dependent initialization is requested,
build constructs a clone of the wrapped layer that is non-trainable,
carries the same weights (kernel and bias) and the same forward function,
and has its activation removed when the wrapped layer is not recurrent;
for recurrent layers the activation of the clone is left as is. -/
theorem clone_construction (L : Layer r d w b ι) (s : WNState r d w b ι)
    (hb : build (wnInit L true) = .ok s) :
    s.clone = some (nakedClone L) ∧
    (nakedClone L).trainable = false ∧
    (nakedClone L).kernel = L.kernel ∧
    (nakedClone L).bias = L.bias ∧
    (nakedClone L).preAct = L.preAct ∧
    (L.isRNN = false → (nakedClone L).activation = none) ∧
    (L.isRNN = true → (nakedClone L).activation = L.activation) := by
  by_cases hkk : L.hasKernel = false
  · simp [build, wnInit, hkk] at hb
  · simp [build, wnInit, hkk] at hb
    subst hb
    refine ⟨rfl, rfl, rfl, rfl, rfl, ?_, ?_⟩ <;> intro h <;> simp [nakedClone, h]

theorem clone_construction_witness :
    (buildState (wnInit testLayer true)).clone = some (nakedClone testLayer) :=
  (clone_construction testLayer (buildState (wnInit testLayer true)) rfl).1

/-- Claim C3: with data-dependent initialization and a clone with no
activation (so its output is the pre-activation output of the frozen
clone on the initialization batch), the first forward call assigns
g := g * (1 / sqrt(variance + 1e-10)) and, since the layer has a non-None
bias, bias := -mean * (1 / sqrt(variance + 1e-10)), where mean and
variance are the per-channel moments of the clone output over all axes but
the last; when the initial scale is the ones vector this yields
g = 1 / sqrt(variance + 1e-10), i.e. approximately 1 / sigma (and the bias
approximately -mu / sigma) regardless of the initial bias value. -/
theorem data_dep_first_call (sq : ℚ → ℚ) (s : WNState r w w b ι) (x : ι)
    (c : Layer r w w b ι) (b0 : Vec w)
    (h1 : s.initialized = false) (h2 : s.data_init = true)
    (h3 : s.clone = some c) (h4 : c.activation = none)
    (h5 : s.layer.bias = some b0) :
    (((call sq s x).2).g
        = fun j => s.g j
            * (1 / sq (tVariance (c.preAct c.kernel c.bias x) j + varEps))) ∧
    (((call sq s x).2).layer.bias
        = some (fun j => -(tMean (c.preAct c.kernel c.bias x) j)
            * (1 / sq (tVariance (c.preAct c.kernel c.bias x) j + varEps)))) ∧
    ((s.g = fun _ => 1) →
      ((call sq s x).2).g
        = fun j => 1 / sq (tVariance (c.preAct c.kernel c.bias x) j + varEps)) := by
  have hfwd : layerForward c x = c.preAct c.kernel c.bias x := by
    simp [layerForward, h4]
  have hg : ((call sq s x).2).g
      = fun j => s.g j
          * (1 / sq (tVariance (c.preAct c.kernel c.bias x) j + varEps)) := by
    funext j
    simp [call, h1, initAssigns, h2, dataDepAssigns, h3, hfwd, dataDepScale_self]
  refine ⟨hg, ?_, ?_⟩
  · simp [call, h1, initAssigns, h2, dataDepAssigns, h3, h5, hfwd, biasScale_self,
      dataDepScale_self_apply]
  · intro hone
    rw [hg, hone]
    funext j
    simp

theorem data_dep_first_call_witness :
    ((call id (buildState (wnInit testLayer true)) ()).2).g
      = fun j => (buildState (wnInit testLayer true)).g j
          * (1 / id (tVariance ((nakedClone testLayer).preAct
              (nakedClone testLayer).kernel (nakedClone testLayer).bias ()) j + varEps)) :=
  (data_dep_first_call id (buildState (wnInit testLayer true)) ()
      (nakedClone testLayer) (fun _ => (0 : ℚ)) rfl rfl rfl rfl rfl).1

end WeightNorm
